import Mathlib

/-
Verification development for the LeaseHawk property-matching and
opportunity-scoring engine.

The Python sources are shallowly embedded as Lean functions:
 - dictionaries / ORM rows become structures with `Option` fields for the
   keys that may be absent (`None`);
 - Python float arithmetic is modelled over `ℚ` (all the constants in the
   source are decimal literals);
 - a raised exception (KeyError / ZeroDivisionError) is modelled as `none`
   of an `Option` result;
 - Python truthiness tests (`if x:`, `x or d`) are modelled explicitly:
   `None` and `0` are falsy;
 - dates are modelled at day granularity: an optional expiration date and
   the evaluation instant "now" are integers (days), so that
   `(expiration - now).days` becomes integer subtraction;
 - `list.sort(key=..., reverse=...)` (a stable sort) is modelled by a
   stable insertion sort with the same comparator semantics: an element is
   placed before the first element it compares less-or-equal to, so equal
   keys keep their input order exactly as CPython's stable sort does.
-/

namespace LeaseHawk

/-- Requirement record (`Prospectus` ORM model / prospectus dict): the
fields of the data model the scoring code reads. Optional fields model
SQL NULL / missing dict keys. -/
structure Prospectus where
  id : Nat
  agency : String
  location : String
  state : String
  special_requirements : Option String
  estimated_nusf : Option ℚ
  estimated_annual_cost : Option ℚ
  rental_rate_per_nusf : Option ℚ
  parking_spaces : Option Nat
  current_lease_expiration : Option ℤ
  max_lease_term_years : Option ℚ
  status : String
deriving DecidableEq

/-- Candidate record (`Property` ORM model / property dict). `id` is the
candidate identifier the spec's tie-break talks about. -/
structure Property where
  id : Nat
  available_sqft : ℚ
  parking_spaces : Option Nat
  asking_rent_per_sqft : Option ℚ
deriving DecidableEq

/-- Python truthiness of an optional count: `None` and `0` are falsy. -/
def truthyN : Option Nat → Bool
  | none => false
  | some n => n ≠ 0

/-- Python truthiness of an optional number: `None` and `0` are falsy. -/
def truthyQ : Option ℚ → Bool
  | none => false
  | some q => q ≠ 0

/-- Python `x or d` on an optional number: `None` and `0` fall back to `d`. -/
def pyOrQ (x : Option ℚ) (d : ℚ) : ℚ :=
  match x with
  | none => d
  | some v => if v = 0 then d else v

/-- Python `x or ''` on an optional string (`''` is falsy, so this is `getD ""`). -/
def pyOrS (x : Option String) : String := x.getD ""

/-- Result record of `PropertyMatcher.calculate_match_score`. -/
structure MatchScores where
  total_score : ℚ
  size_score : ℚ
  parking_score : ℚ
  price_score : ℚ
  location_score : ℚ
deriving DecidableEq

/-- Size score of `calculate_match_score`:
`max(0, 100 - size_diff_pct * 100)` with
`size_diff_pct = abs(available_sqft - estimated_nusf) / estimated_nusf`. -/
def size_score (nusf avail : ℚ) : ℚ :=
  max 0 (100 - |avail - nusf| / nusf * 100)

/-- Parking score of `calculate_match_score`: when both parking counts are
truthy, `min(100, parking_ratio * 100)`; otherwise the neutral 50. -/
def parking_score (preq pprop : Option Nat) : ℚ :=
  if truthyN preq && truthyN pprop then
    min 100 ((pprop.getD 0 : ℚ) / (preq.getD 0 : ℚ) * 100)
  else 50

/-- Price score of `calculate_match_score`: when both rates are truthy,
100 if the asking rate is at or below the GSA rate, otherwise
`max(0, 100 - overage * 100)`; the neutral 50 when either rate is missing. -/
def price_score (ask rate : Option ℚ) : ℚ :=
  if truthyQ ask && truthyQ rate then
    if ask.getD 0 ≤ rate.getD 0 then 100
    else max 0 (100 - (ask.getD 0 - rate.getD 0) / rate.getD 0 * 100)
  else 50

/-- Location score of `calculate_match_score`: the placeholder constant 75. -/
def location_score : ℚ := 75

/-- `PropertyMatcher.calculate_match_score`. The Python code reads
`prospectus['estimated_nusf']` and divides by it: a missing key raises
KeyError and a zero value raises ZeroDivisionError, both modelled as
`none`. Otherwise it returns the four sub-scores and the weighted total
(weights: size 0.35, location 0.30, parking 0.20, price 0.15). -/
def calculate_match_score (pros : Prospectus) (prop : Property) : Option MatchScores :=
  match pros.estimated_nusf with
  | none => none
  | some nusf =>
    if nusf = 0 then none
    else
      let s := size_score nusf prop.available_sqft
      let pk := parking_score pros.parking_spaces prop.parking_spaces
      let pr := price_score prop.asking_rent_per_sqft pros.rental_rate_per_nusf
      some
        { total_score :=
            s * (35 / 100) + location_score * (30 / 100) + pk * (20 / 100) + pr * (15 / 100)
          size_score := s
          parking_score := pk
          price_score := pr
          location_score := location_score }

/-- Stable insertion step: `a` is placed before the first element `b` with
`le a b`. With `le` the comparator key order this reproduces CPython's
stable `list.sort`: equal keys keep their input order. -/
def insertLe (le : α → α → Bool) (a : α) : List α → List α
  | [] => [a]
  | b :: l => if le a b then a :: b :: l else b :: insertLe le a l

/-- Stable sort by `le` (insertion sort), the model of `list.sort`. -/
def stableSort (le : α → α → Bool) : List α → List α
  | [] => []
  | a :: l => insertLe le a (stableSort le l)

/-- Comparator of `find_matches`'s
`matches.sort(key=lambda x: x['scores']['total_score'], reverse=True)`:
descending by total score. -/
def matchLe (a b : Property × MatchScores) : Bool :=
  decide (b.2.total_score ≤ a.2.total_score)

/-- Scoring loop of `PropertyMatcher.find_matches`: each property is scored
in turn; the first raised exception (modelled `none`) aborts the whole call. -/
def score_all (pros : Prospectus) : List Property → Option (List (Property × MatchScores))
  | [] => some []
  | p :: ps =>
    match calculate_match_score pros p, score_all pros ps with
    | some s, some rest => some ((p, s) :: rest)
    | _, _ => none

/-- Default minimum-score threshold of `find_matches` (`min_score: float = 60`). -/
def default_min_score : ℚ := 60

/-- `PropertyMatcher.find_matches`: score every property, keep those with
total score at or above `min_score`, and stable-sort the kept list by
total score descending. -/
def find_matches (pros : Prospectus) (properties : List Property) (min_score : ℚ) :
    Option (List (Property × MatchScores)) :=
  match score_all pros properties with
  | none => none
  | some scored =>
    some (stableSort matchLe (scored.filter (fun x => decide (min_score ≤ x.2.total_score))))

/-- Urgency tier of the pipeline endpoints. `Unknown` never occurs in
`get_gsa_pipeline` but is the tier the spec's classifier uses for a missing
expiration date, so it is part of the type. -/
inductive Urgency where
  | High
  | Medium
  | Low
  | Unknown
deriving DecidableEq

/-- Urgency computation of `get_gsa_pipeline` (`src/backend/app/main.py` and
`src/api/index.py`): start from `"Low"`, and only when an expiration date is
present reclassify by `days_left = (expiration - utcnow).days`:
High when `days_left <= 90`, Medium when `days_left <= 180`. A missing
expiration therefore stays `Low`. -/
def urgency_score (exp : Option ℤ) (now : ℤ) : Urgency :=
  match exp with
  | none => .Low
  | some e =>
    if e - now ≤ 90 then .High
    else if e - now ≤ 180 then .Medium
    else .Low

/-- Urgency levels of `DealCalculator.calculate_timeline_value`. -/
inductive TimelineLevel where
  | Unknown
  | CRITICAL
  | HIGH
  | MEDIUM
  | LOW
deriving DecidableEq

/-- Timeline fields of `DealCalculator.calculate_timeline_value` that the
urgency claims read. -/
structure TimelineAnalysis where
  urgency_level : TimelineLevel
  days_until_expiration : Option ℤ
  urgency_multiplier : ℚ
deriving DecidableEq

/-- `DealCalculator.calculate_timeline_value`: missing expiration yields
`Unknown` with multiplier 1.0; otherwise tiers by
`days_until = (expiration - now).days` at 180 / 365 / 730 (strict `<`). -/
def calculate_timeline_value (exp : Option ℤ) (now : ℤ) : TimelineAnalysis :=
  match exp with
  | none => { urgency_level := .Unknown, days_until_expiration := none, urgency_multiplier := 1 }
  | some e =>
    let d := e - now
    if d < 180 then
      { urgency_level := .CRITICAL, days_until_expiration := some d, urgency_multiplier := 13 / 10 }
    else if d < 365 then
      { urgency_level := .HIGH, days_until_expiration := some d, urgency_multiplier := 12 / 10 }
    else if d < 730 then
      { urgency_level := .MEDIUM, days_until_expiration := some d, urgency_multiplier := 11 / 10 }
    else
      { urgency_level := .LOW, days_until_expiration := some d, urgency_multiplier := 1 }

/-- Earnings block (`your_potential_earnings`) of
`DealCalculator.calculate_deal_value`. -/
structure DealEarnings where
  finder_fee : ℚ
  consulting_fee : ℚ
  success_bonus : ℚ
  ongoing_annual_commission : ℚ
  total_upfront : ℚ
  total_ongoing : ℚ
  total_potential : ℚ
deriving DecidableEq

/-- Earnings computation of `DealCalculator.calculate_deal_value` with the
constructor's fee structure (2% finder fee, $25,000 consulting fee, 1%
success bonus, 0.5% ongoing commission):
`annual_value = estimated_annual_cost or 0`,
`lease_term = max_lease_term_years or 10`,
`total_upfront = finder_fee + consulting_fee + success_bonus`,
`total_ongoing = ongoing_annual_commission * lease_term`,
`total_potential = total_upfront + total_ongoing`. -/
def calculate_deal_earnings (p : Prospectus) : DealEarnings :=
  let annual_value := pyOrQ p.estimated_annual_cost 0
  let lease_term := pyOrQ p.max_lease_term_years 10
  let finder := annual_value * (2 / 100)
  let consulting : ℚ := 25000
  let bonus := annual_value * (1 / 100)
  let ongoing := annual_value * (5 / 1000)
  { finder_fee := finder
    consulting_fee := consulting
    success_bonus := bonus
    ongoing_annual_commission := ongoing
    total_upfront := finder + consulting + bonus
    total_ongoing := ongoing * lease_term
    total_potential := (finder + consulting + bonus) + ongoing * lease_term }

/-- Does the character list start with the pattern? (helper for Python's
substring operator `in`). -/
def charsStartWith : List Char → List Char → Bool
  | [], _ => true
  | _ :: _, [] => false
  | c :: cs, d :: ds => c = d && charsStartWith cs ds

/-- Does the pattern occur anywhere in the character list? -/
def charsOccur (t : List Char) : List Char → Bool
  | [] => charsStartWith t []
  | c :: cs => charsStartWith t (c :: cs) || charsOccur t cs

/-- Python's substring test `t in s`. -/
def strContains (s t : String) : Bool := charsOccur t.data s.data

/-- Size-advantage band of `WinningStrategy.calculate_win_probability`
(`sqft = estimated_nusf or 0`; smaller space scores higher, max 25). -/
def size_advantage (sqft : ℚ) : Nat :=
  if sqft < 30000 then 25
  else if sqft < 50000 then 20
  else if sqft < 75000 then 15
  else if sqft < 100000 then 10
  else 5

/-- Location-advantage band of `calculate_win_probability`: rural states 20,
mid-size states 15, major-metro keyword in the location 5, default 12
(location and state are lowercased first). -/
def location_advantage (location state : String) : Nat :=
  let loc := location.toLower
  let st := state.toLower
  if ["wv", "mt", "wy", "vt", "me", "nd", "sd", "ak"].contains st then 20
  else if ["oh", "ut", "ok", "ks", "ne", "ia", "ar", "ms", "al"].contains st then 15
  else if ["washington", "new york", "los angeles", "chicago", "boston",
      "san francisco"].any (fun metro => strContains loc metro) then 5
  else 12

/-- Agency-advantage band of `calculate_win_probability`: substring keyword
match on the lowercased agency name (and special requirements for VA
medical), max 20. -/
def agency_advantage (agency special : String) : Nat :=
  let ag := agency.toLower
  let sp := special.toLower
  if strContains ag "va" && strContains sp "medical" then 20
  else if strContains ag "va" then 18
  else if strContains ag "usda" || strContains ag "agriculture" then 16
  else if strContains ag "sba" then 15
  else if strContains ag "gsa" then 12
  else if strContains ag "dod" || strContains ag "defense" then 8
  else 10

/-- Timeline-advantage band of `calculate_win_probability`: by
`urgency_days`, strict `<` thresholds 180 / 365 / 730, max 15. -/
def timeline_advantage (urgency_days : ℤ) : Nat :=
  if urgency_days < 180 then 15
  else if urgency_days < 365 then 12
  else if urgency_days < 730 then 8
  else 5

/-- Competition-advantage band of `calculate_win_probability`: keyword match
on the lowercased special requirements, max 10. -/
def competition_advantage (special : String) : Nat :=
  let sp := special.toLower
  if ["medical", "laboratory", "secure", "classified"].any
      (fun req => strContains sp req) then 10
  else if ["parking", "loading", "storage"].any (fun req => strContains sp req) then 7
  else 5

/-- Value-advantage band of `calculate_win_probability`
(`annual_value = estimated_annual_cost or 0`): $2M-$8M sweet spot 10,
$1M-$15M 8, above $20M 3, otherwise 6. -/
def value_advantage (annual_value : ℚ) : Nat :=
  if 2000000 ≤ annual_value ∧ annual_value ≤ 8000000 then 10
  else if 1000000 ≤ annual_value ∧ annual_value ≤ 15000000 then 8
  else if annual_value > 20000000 then 3
  else 6

/-- `WinningStrategy.calculate_urgency`: days until lease expiration, with
the sentinel 999 when no expiration date is present. -/
def calculate_urgency (exp : Option ℤ) (now : ℤ) : ℤ :=
  match exp with
  | none => 999
  | some e => e - now

/-- Scores dict of `WinningStrategy.calculate_win_probability`. -/
structure WinScores where
  size_advantage : Nat
  location_advantage : Nat
  agency_advantage : Nat
  timeline_advantage : Nat
  competition_advantage : Nat
  value_advantage : Nat
  total_score : Nat
deriving DecidableEq

/-- `WinningStrategy.calculate_win_probability`: the six banded sub-scores,
with `total_score = sum(scores.values()) - scores['total_score']`, i.e. the
plain sum of the six sub-scores. -/
def calculate_win_probability (p : Prospectus) (now : ℤ) : WinScores :=
  let size := size_advantage (pyOrQ p.estimated_nusf 0)
  let loc := location_advantage p.location p.state
  let ag := agency_advantage p.agency (pyOrS p.special_requirements)
  let tl := timeline_advantage (calculate_urgency p.current_lease_expiration now)
  let comp := competition_advantage (pyOrS p.special_requirements)
  let val := value_advantage (pyOrQ p.estimated_annual_cost 0)
  { size_advantage := size
    location_advantage := loc
    agency_advantage := ag
    timeline_advantage := tl
    competition_advantage := comp
    value_advantage := val
    total_score := size + loc + ag + tl + comp + val }

/-- Fields of an `identify_easiest_wins` entry that the claims read:
`win_probability = score['total_score']`,
`potential_fee = (estimated_annual_cost or 0) * 0.02`,
`urgency_days = calculate_urgency(prospectus)`. -/
structure EasyWinEntry where
  win_probability : Nat
  potential_fee : ℚ
  urgency_days : ℤ
deriving DecidableEq

/-- Per-prospectus entry built by `WinningStrategy.identify_easiest_wins`. -/
def easy_win_entry (p : Prospectus) (now : ℤ) : EasyWinEntry :=
  { win_probability := (calculate_win_probability p now).total_score
    potential_fee := pyOrQ p.estimated_annual_cost 0 * (2 / 100)
    urgency_days := calculate_urgency p.current_lease_expiration now }

/-- Sort-relevant fields of a `get_gsa_pipeline` item. -/
structure PipelineItem where
  id : Nat
  urgency : Urgency
  annual_value : Option ℚ
deriving DecidableEq

/-- First sort-key component of `get_gsa_pipeline`:
`0 if urgency == "High" else 1 if urgency == "Medium" else 2`. -/
def urgencyRank : Urgency → Nat
  | .High => 0
  | .Medium => 1
  | _ => 2

/-- Second sort-key component of `get_gsa_pipeline`:
`-annual_value if annual_value else 0` (falsy `None`/`0` give 0). -/
def valueKey (v : Option ℚ) : ℚ :=
  match v with
  | none => 0
  | some x => if x = 0 then 0 else -x

/-- The full sort key tuple of `get_gsa_pipeline`. -/
def pipeKey (x : PipelineItem) : Nat × ℚ := (urgencyRank x.urgency, valueKey x.annual_value)

/-- Lexicographic order on the sort-key tuples (Python tuple comparison). -/
def keyLe (p q : Nat × ℚ) : Bool :=
  decide (p.1 < q.1) || (decide (p.1 = q.1) && decide (p.2 ≤ q.2))

/-- Comparator of `pipeline_data.sort(key=...)`. -/
def pipeLe (a b : PipelineItem) : Bool := keyLe (pipeKey a) (pipeKey b)

/-- The pipeline display sort of `get_gsa_pipeline` (in both
`src/backend/app/main.py` and `src/api/index.py`): ascending stable sort by
`(urgency rank, -annual_value if annual_value else 0)`. -/
def pipeline_sort (l : List PipelineItem) : List PipelineItem := stableSort pipeLe l

/-- Pipeline item built from a prospectus by `get_gsa_pipeline`:
the urgency string and the raw annual value. -/
def pipeline_item (p : Prospectus) (now : ℤ) : PipelineItem :=
  { id := p.id
    urgency := urgency_score p.current_lease_expiration now
    annual_value := p.estimated_annual_cost }

/-- `get_gsa_pipeline` restricted to its sort behaviour: build the items for
the active prospectuses and stable-sort them by the urgency/value key. -/
def get_gsa_pipeline (ps : List Prospectus) (now : ℤ) : List PipelineItem :=
  pipeline_sort ((ps.filter (fun p => p.status = "active")).map (fun p => pipeline_item p now))

/-- The spec's example scenario requirement: required_area 50000, max rate
25.00, parking 200, annual cost 1,250,000 (no expiration on file). -/
def example_requirement : Prospectus :=
  { id := 1
    agency := "gsa"
    location := "denver"
    state := "co"
    special_requirements := none
    estimated_nusf := some 50000
    estimated_annual_cost := some 1250000
    rental_rate_per_nusf := some 25
    parking_spaces := some 200
    current_lease_expiration := none
    max_lease_term_years := some 10
    status := "active" }

/-- The spec's example scenario candidate: available_area 48000, asking rate
24.50, parking 210. -/
def example_candidate : Property :=
  { id := 1
    available_sqft := 48000
    parking_spaces := some 210
    asking_rent_per_sqft := some (49 / 2) }

/-- The example candidate moved to a worse size match (same parking and
price data). -/
def far_candidate : Property :=
  { example_candidate with available_sqft := 40000 }

/-- The example requirement with a zero required area. -/
def zero_area_requirement : Prospectus :=
  { example_requirement with estimated_nusf := some 0 }

/-- The example requirement with no annual cost on file. -/
def no_cost_requirement : Prospectus :=
  { example_requirement with estimated_annual_cost := none }

/-- A requirement whose candidates all score identically (parking and rate
data missing on both sides). -/
def tie_requirement : Prospectus :=
  { example_requirement with
    estimated_nusf := some 1000
    rental_rate_per_nusf := none
    parking_spaces := none }

/-- A perfectly sized candidate with identifier 2. -/
def tie_candidate_a : Property :=
  { id := 2
    available_sqft := 1000
    parking_spaces := none
    asking_rent_per_sqft := none }

/-- The same candidate data under the smaller identifier 1. -/
def tie_candidate_b : Property :=
  { tie_candidate_a with id := 1 }

/-- The scores both tie candidates receive against `tie_requirement`:
perfect size (100), neutral parking and price (50 each), location 75,
weighted total 75. -/
def tieScores : MatchScores :=
  { total_score := 75
    size_score := 100
    parking_score := 50
    price_score := 50
    location_score := 75 }

/-- A pipeline item with identifier 2 (High urgency, value 5). -/
def tie_item_a : PipelineItem :=
  { id := 2
    urgency := .High
    annual_value := some 5 }

/-- The same pipeline sort key under the smaller identifier 1. -/
def tie_item_b : PipelineItem :=
  { tie_item_a with id := 1 }

/-- Inserting an element is a permutation of consing it. -/
theorem insertLe_perm (le : α → α → Bool) (a : α) (l : List α) :
    List.Perm (insertLe le a l) (a :: l) := by
  induction l with
  | nil => exact List.Perm.refl _
  | cons b l ih =>
    unfold insertLe
    split
    · exact List.Perm.refl _
    · exact (List.Perm.cons b ih).trans (List.Perm.swap a b l)

/-- The stable sort is a permutation of its input. -/
theorem stableSort_perm (le : α → α → Bool) (l : List α) :
    List.Perm (stableSort le l) l := by
  induction l with
  | nil => exact List.Perm.refl _
  | cons a l ih => exact (insertLe_perm le a _).trans (List.Perm.cons a ih)

/-- Inserting into a pairwise-`le` list keeps it pairwise-`le`, provided `le`
is total and transitive. -/
theorem insertLe_pairwise (le : α → α → Bool)
    (htot : ∀ x y, le x y = false → le y x = true)
    (htrans : ∀ x y z, le x y = true → le y z = true → le x z = true)
    (a : α) (l : List α) (h : l.Pairwise (fun x y => le x y = true)) :
    (insertLe le a l).Pairwise (fun x y => le x y = true) := by
  induction l with
  | nil => simp [insertLe]
  | cons b l ih =>
    rcases List.pairwise_cons.mp h with ⟨hb, hl⟩
    unfold insertLe
    split
    · rename_i hab
      refine List.pairwise_cons.mpr ⟨?_, h⟩
      intro y hy
      rcases List.mem_cons.mp hy with hyb | hyl
      · exact hyb ▸ hab
      · exact htrans a b y hab (hb y hyl)
    · rename_i hab
      have hba : le b a = true := htot a b (Bool.not_eq_true _ ▸ hab)
      refine List.pairwise_cons.mpr ⟨?_, ih hl⟩
      intro y hy
      rcases List.mem_cons.mp ((insertLe_perm le a l).mem_iff.mp hy) with hya | hyl
      · exact hya ▸ hba
      · exact hb y hyl

/-- The stable sort's output is pairwise-`le` when `le` is total and
transitive. -/
theorem stableSort_pairwise (le : α → α → Bool)
    (htot : ∀ x y, le x y = false → le y x = true)
    (htrans : ∀ x y z, le x y = true → le y z = true → le x z = true)
    (l : List α) :
    (stableSort le l).Pairwise (fun x y => le x y = true) := by
  induction l with
  | nil => simp [stableSort]
  | cons a l ih => exact insertLe_pairwise le htot htrans a _ ih

/-- Stability of the insertion step on any class of mutually-`le` elements:
filtering by a predicate on which `le` always holds commutes with insertion. -/
theorem insertLe_filter (le : α → α → Bool) (P : α → Bool)
    (hP : ∀ x y, P x = true → P y = true → le x y = true)
    (a : α) (l : List α) :
    (insertLe le a l).filter P = if P a then a :: l.filter P else l.filter P := by
  induction l with
  | nil =>
    simp only [insertLe, List.filter]
    split <;> simp_all
  | cons b l ih =>
    unfold insertLe
    split
    · rename_i hab
      simp only [List.filter]
      split <;> split <;> simp_all [List.filter_cons]
    · rename_i hab
      have hnot : ¬(P a = true ∧ P b = true) := by
        rintro ⟨hpa, hpb⟩
        exact hab (hP a b hpa hpb)
      by_cases hpa : P a = true
      · have hpb : P b = false := by
          cases hb : P b
          · rfl
          · exact absurd ⟨hpa, hb⟩ hnot
        simp [List.filter_cons, hpa, hpb, ih]
      · have hpa' : P a = false := Bool.not_eq_true _ ▸ hpa
        simp [List.filter_cons, hpa', ih]

/-- Stability of the stable sort: the subsequence of elements on which `le`
is mutually true (e.g. all elements of one sort-key class) is exactly the
same, in the same order, as in the input. -/
theorem stableSort_filter (le : α → α → Bool) (P : α → Bool)
    (hP : ∀ x y, P x = true → P y = true → le x y = true)
    (l : List α) :
    (stableSort le l).filter P = l.filter P := by
  induction l with
  | nil => rfl
  | cons a l ih =>
    unfold stableSort
    rw [insertLe_filter le P hP a _, ih, List.filter_cons]

/-- The size score is never negative. -/
theorem size_score_nonneg (nusf avail : ℚ) : 0 ≤ size_score nusf avail :=
  le_max_left 0 _

/-- The size score is at most 100 for a positive required area. -/
theorem size_score_le_100 (nusf avail : ℚ) (h : 0 < nusf) :
    size_score nusf avail ≤ 100 := by
  unfold size_score
  have hd : 0 ≤ |avail - nusf| / nusf * 100 := by positivity
  apply max_le (by norm_num)
  linarith

/-- The size score does not increase as the absolute area difference grows
(positive required area). -/
theorem size_score_mono (nusf a1 a2 : ℚ) (h : 0 < nusf)
    (hd : |a1 - nusf| ≤ |a2 - nusf|) :
    size_score nusf a2 ≤ size_score nusf a1 := by
  unfold size_score
  apply max_le_max le_rfl
  have : |a1 - nusf| / nusf ≤ |a2 - nusf| / nusf := by gcongr
  linarith

/-- The parking score always lies in [0, 100]. -/
theorem parking_score_bounds (preq pprop : Option Nat) :
    0 ≤ parking_score preq pprop ∧ parking_score preq pprop ≤ 100 := by
  unfold parking_score
  split
  · constructor
    · apply le_min (by norm_num)
      positivity
    · exact min_le_left _ _
  · norm_num

/-- The price score lies in [0, 100] provided the requirement's rate, when
present, is non-negative. -/
theorem price_score_bounds (ask rate : Option ℚ) (hr : 0 ≤ rate.getD 0) :
    0 ≤ price_score ask rate ∧ price_score ask rate ≤ 100 := by
  unfold price_score
  split
  · rename_i htr
    have hrt : truthyQ rate = true := (Bool.and_eq_true _ _ |>.mp htr).2
    have hrne : rate.getD 0 ≠ 0 := by
      cases rate with
      | none => simp [truthyQ] at hrt
      | some r => simpa [truthyQ] using hrt
    have hrpos : 0 < rate.getD 0 := lt_of_le_of_ne hr (Ne.symm hrne)
    split
    · norm_num
    · rename_i hgt
      push_neg at hgt
      have hov : 0 ≤ (ask.getD 0 - rate.getD 0) / rate.getD 0 * 100 := by
        have : 0 ≤ ask.getD 0 - rate.getD 0 := by linarith
        positivity
      constructor
      · exact le_max_left 0 _
      · apply max_le (by norm_num)
        linarith
  · norm_num

/-- C1 counterexample: on a requirement whose required area is zero, the
calculator does not return an "unscorable" sentinel result — the division
raises (modelled as `none`), so there is no returned score record at all.
The same happens when the area key is absent (KeyError). -/
theorem calculate_match_score_zero_area_raises :
    (calculate_match_score zero_area_requirement example_candidate).isSome = false := by
  simp [calculate_match_score, zero_area_requirement, example_requirement]

/-- C1 (amended): `calculate_match_score` fails — raises KeyError or
ZeroDivisionError, modelled as `none` — exactly when the requirement's
required area is absent or zero; it never returns a sentinel score for such
a requirement, so the caller must guarantee a positive (nonzero) required
area. -/
theorem calculate_match_score_none_iff (pros : Prospectus) (prop : Property) :
    calculate_match_score pros prop = none ↔
      pros.estimated_nusf = none ∨ pros.estimated_nusf = some 0 := by
  unfold calculate_match_score
  cases h : pros.estimated_nusf with
  | none => simp
  | some nusf =>
    by_cases hz : nusf = 0 <;> simp [hz]

/-- C8 counterexample: on the spec's example scenario the weighted total is
91.1 (= 0.35·96 + 0.30·75 + 0.20·100 + 0.15·100), not approximately 93.3:
the claimed total is off by 2.2. -/
theorem example_scenario_total_not_93 :
    (calculate_match_score example_requirement example_candidate).map MatchScores.total_score
        = some (911 / 10) ∧
      ¬((933 : ℚ) / 10 - 911 / 10 < 1) := by
  constructor
  · simp only [calculate_match_score, example_requirement, example_candidate, size_score,
      parking_score, price_score, location_score, truthyN, truthyQ, Option.getD]
    norm_num
  · norm_num

/-- C8 (amended): the spec's example scenario yields size score 96, price
score 100, parking score 100 (capped), location score 75, and weighted
total 91.1. -/
theorem example_scenario_scores :
    calculate_match_score example_requirement example_candidate =
      some
        { total_score := 911 / 10
          size_score := 96
          parking_score := 100
          price_score := 100
          location_score := 75 } := by
  simp only [calculate_match_score, example_requirement, example_candidate, size_score,
    parking_score, price_score, location_score, truthyN, truthyQ, Option.getD]
  norm_num

/-- C3: for a requirement with a positive required area (and non-negative
rate data, per the data model), the weighted total lies in [0,100]; and
holding the parking and price inputs fixed, the total does not increase as
the absolute difference between available and required area grows. -/
theorem calculate_match_score_bounds_mono
    (pros : Prospectus) (A : ℚ) (p1 p2 : Property)
    (hA : pros.estimated_nusf = some A) (hApos : 0 < A)
    (hr : 0 ≤ pros.rental_rate_per_nusf.getD 0)
    (hpark : p1.parking_spaces = p2.parking_spaces)
    (hask : p1.asking_rent_per_sqft = p2.asking_rent_per_sqft)
    (hd : |p1.available_sqft - A| ≤ |p2.available_sqft - A|) :
    ∃ s1 s2, calculate_match_score pros p1 = some s1 ∧
      calculate_match_score pros p2 = some s2 ∧
      0 ≤ s1.total_score ∧ s1.total_score ≤ 100 ∧
      0 ≤ s2.total_score ∧ s2.total_score ≤ 100 ∧
      s2.total_score ≤ s1.total_score := by
  have hAz : A ≠ 0 := ne_of_gt hApos
  have h1 := size_score_nonneg A p1.available_sqft
  have h2 := size_score_le_100 A p1.available_sqft hApos
  have h3 := size_score_nonneg A p2.available_sqft
  have h4 := size_score_le_100 A p2.available_sqft hApos
  obtain ⟨h5, h6⟩ := parking_score_bounds pros.parking_spaces p1.parking_spaces
  obtain ⟨h7, h8⟩ := parking_score_bounds pros.parking_spaces p2.parking_spaces
  obtain ⟨h9, h10⟩ :=
    price_score_bounds p1.asking_rent_per_sqft pros.rental_rate_per_nusf hr
  obtain ⟨h11, h12⟩ :=
    price_score_bounds p2.asking_rent_per_sqft pros.rental_rate_per_nusf hr
  have hmono := size_score_mono A p1.available_sqft p2.available_sqft hApos hd
  simp only [calculate_match_score, hA, if_neg hAz, location_score]
  refine ⟨_, _, rfl, rfl, by linarith, by linarith, by linarith, by linarith, ?_⟩
  rw [hpark, hask] at *
  linarith

/-- C3 witness: the bound and the monotonicity at the spec's example
requirement, the example candidate (area difference 2000) and the farther
candidate (area difference 10000). -/
theorem calculate_match_score_bounds_mono_witness :
    ∃ s1 s2, calculate_match_score example_requirement example_candidate = some s1 ∧
      calculate_match_score example_requirement far_candidate = some s2 ∧
      0 ≤ s1.total_score ∧ s1.total_score ≤ 100 ∧
      0 ≤ s2.total_score ∧ s2.total_score ≤ 100 ∧
      s2.total_score ≤ s1.total_score :=
  calculate_match_score_bounds_mono example_requirement 50000 example_candidate far_candidate
    rfl (by norm_num) (by norm_num [example_requirement]) rfl rfl
    (by norm_num [example_candidate, far_candidate])

/-- The comparator of `find_matches` is total. -/
theorem matchLe_total (x y : Property × MatchScores) (h : matchLe x y = false) :
    matchLe y x = true := by
  unfold matchLe at *
  simp only [decide_eq_false_iff_not, not_le] at h
  simpa using le_of_lt h

/-- The comparator of `find_matches` is transitive. -/
theorem matchLe_trans (x y z : Property × MatchScores)
    (hxy : matchLe x y = true) (hyz : matchLe y z = true) : matchLe x z = true := by
  unfold matchLe at *
  simp only [decide_eq_true_eq] at *
  exact le_trans hyz hxy

/-- Evaluation of the scoring loop on the tie scenario: both candidates get
the identical score record `tieScores`. -/
theorem tie_score_all_eval :
    score_all tie_requirement [tie_candidate_a, tie_candidate_b] =
      some [(tie_candidate_a, tieScores), (tie_candidate_b, tieScores)] := by
  simp only [score_all, calculate_match_score, tie_requirement, example_requirement,
    tie_candidate_a, tie_candidate_b, tieScores, size_score, parking_score, price_score,
    location_score, truthyN, truthyQ, Option.getD]
  norm_num

/-- C2 (amended): whenever the scoring loop raises no exception,
`find_matches` returns exactly the scored candidates whose total is at or
above the threshold, in total-score-descending order; candidates with equal
totals keep the order the candidate list supplied them in (Python's stable
sort) — they are NOT reordered by candidate identifier. -/
theorem find_matches_spec (pros : Prospectus) (props : List Property) (min_score : ℚ)
    (scored : List (Property × MatchScores)) (h : score_all pros props = some scored) :
    ∃ r, find_matches pros props min_score = some r ∧
      (∀ x ∈ r, min_score ≤ x.2.total_score) ∧
      r.Pairwise (fun a b => b.2.total_score ≤ a.2.total_score) ∧
      List.Perm r (scored.filter (fun x => decide (min_score ≤ x.2.total_score))) ∧
      (∀ v : ℚ, r.filter (fun x => decide (x.2.total_score = v)) =
        (scored.filter (fun x => decide (min_score ≤ x.2.total_score))).filter
          (fun x => decide (x.2.total_score = v))) := by
  simp only [find_matches, h]
  refine ⟨_, rfl, ?_, ?_, ?_, ?_⟩
  · intro x hx
    have hmem :=
      (stableSort_perm matchLe
        (scored.filter (fun x => decide (min_score ≤ x.2.total_score)))).mem_iff.mp hx
    simpa using (List.mem_filter.mp hmem).2
  · have hp := stableSort_pairwise matchLe matchLe_total matchLe_trans
      (scored.filter (fun x => decide (min_score ≤ x.2.total_score)))
    refine hp.imp ?_
    intro a b hab
    simpa [matchLe] using hab
  · exact stableSort_perm matchLe _
  · intro v
    exact stableSort_filter matchLe (fun x => decide (x.2.total_score = v))
      (by
        intro x y hx hy
        simp only [decide_eq_true_eq] at hx hy
        simp [matchLe, hx, hy]) _

/-- C2 witness: the specification of `find_matches` at the tie scenario,
threshold 60. -/
theorem find_matches_spec_witness :
    ∃ r, find_matches tie_requirement [tie_candidate_a, tie_candidate_b] 60 = some r ∧
      (∀ x ∈ r, (60 : ℚ) ≤ x.2.total_score) ∧
      r.Pairwise (fun a b => b.2.total_score ≤ a.2.total_score) ∧
      List.Perm r
        ([(tie_candidate_a, tieScores), (tie_candidate_b, tieScores)].filter
          (fun x => decide ((60 : ℚ) ≤ x.2.total_score))) ∧
      (∀ v : ℚ, r.filter (fun x => decide (x.2.total_score = v)) =
        ([(tie_candidate_a, tieScores), (tie_candidate_b, tieScores)].filter
            (fun x => decide ((60 : ℚ) ≤ x.2.total_score))).filter
          (fun x => decide (x.2.total_score = v))) :=
  find_matches_spec tie_requirement [tie_candidate_a, tie_candidate_b] 60
    [(tie_candidate_a, tieScores), (tie_candidate_b, tieScores)] tie_score_all_eval

/-- C2 counterexample: both tie candidates pass the default threshold with
the identical total 75, and the returned order keeps identifier 2 before
identifier 1 — the input order — so ties are not broken by candidate
identifier ascending. -/
theorem find_matches_tie_keeps_input_order :
    find_matches tie_requirement [tie_candidate_a, tie_candidate_b] default_min_score =
        some [(tie_candidate_a, tieScores), (tie_candidate_b, tieScores)] ∧
      tie_candidate_b.id < tie_candidate_a.id ∧
      tieScores.total_score = 75 := by
  refine ⟨?_, by norm_num [tie_candidate_a, tie_candidate_b], rfl⟩
  rw [find_matches, tie_score_all_eval]
  norm_num [default_min_score, tieScores, stableSort, insertLe, matchLe]

/-- C4 counterexample: with no expiration date the pipeline urgency
computation returns Low, not Unknown — so "Unknown iff the expiration date
is absent" fails on the pipeline classifier. -/
theorem urgency_score_none_is_Low :
    urgency_score none 0 = Urgency.Low ∧ Urgency.Low ≠ Urgency.Unknown := by
  exact ⟨rfl, by decide⟩

/-- C4 (amended): the pipeline urgency computation never returns Unknown —
an absent expiration date yields Low — and, when a date is present, it is
High iff days-until-expiration ≤ 90 and Medium iff 90 <
days-until-expiration ≤ 180, Low otherwise. The classifier that does return
Unknown exactly on an absent date is `calculate_timeline_value`, whose
tiers use the different thresholds 180/365/730. -/
theorem urgency_classifier_characterization :
    (∀ now : ℤ, urgency_score none now = Urgency.Low) ∧
      (∀ x : Option ℤ, ∀ now : ℤ, urgency_score x now ≠ Urgency.Unknown) ∧
      (∀ e now : ℤ, (urgency_score (some e) now = Urgency.High ↔ e - now ≤ 90)) ∧
      (∀ e now : ℤ,
        (urgency_score (some e) now = Urgency.Medium ↔ 90 < e - now ∧ e - now ≤ 180)) ∧
      (∀ e now : ℤ,
        (urgency_score (some e) now = Urgency.Low ↔ 180 < e - now)) ∧
      (∀ x : Option ℤ, ∀ now : ℤ,
        ((calculate_timeline_value x now).urgency_level = TimelineLevel.Unknown ↔ x = none)) := by
  refine ⟨fun now => rfl, ?_, ?_, ?_, ?_, ?_⟩
  · intro x now
    cases x with
    | none => simp [urgency_score]
    | some e =>
      simp only [urgency_score]
      split_ifs <;> simp
  · intro e now
    simp only [urgency_score]
    split_ifs with h1 h2 <;> simp_all
  · intro e now
    simp only [urgency_score]
    split_ifs with h1 h2 <;> simp_all
    all_goals omega
  · intro e now
    simp only [urgency_score]
    split_ifs with h1 h2 <;> simp_all
    all_goals omega
  · intro x now
    cases x with
    | none => simp [calculate_timeline_value]
    | some e =>
      simp only [calculate_timeline_value]
      split_ifs <;> simp

/-- C5 counterexample: with no annual cost on file the total potential is
the flat consulting fee 25000, not 0. The same holds for an annual cost of
0 (`annual_value = estimated_annual_cost or 0` makes the two cases
identical). -/
theorem total_potential_missing_cost_is_consulting :
    (calculate_deal_earnings no_cost_requirement).total_potential = 25000 ∧
      (25000 : ℚ) ≠ 0 := by
  constructor
  · simp [calculate_deal_earnings, no_cost_requirement, example_requirement, pyOrQ]
  · norm_num

/-- C5 (amended): total_potential is finder fee + consulting fee + success
bonus + ongoing annual commission × lease term years; it equals the flat
consulting fee 25000 (not 0) when the estimated annual cost is 0 or absent,
and is strictly increasing in the estimated annual cost on positive costs
(given a non-negative lease term, per the data model). -/
theorem total_potential_formula_mono (p : Prospectus) (a1 a2 : ℚ)
    (ht : 0 ≤ p.max_lease_term_years.getD 0) (h1 : 0 < a1) (h12 : a1 < a2) :
    ((calculate_deal_earnings p).total_potential =
        (calculate_deal_earnings p).finder_fee + (calculate_deal_earnings p).consulting_fee +
          (calculate_deal_earnings p).success_bonus +
          (calculate_deal_earnings p).ongoing_annual_commission *
            pyOrQ p.max_lease_term_years 10) ∧
      (p.estimated_annual_cost = none ∨ p.estimated_annual_cost = some 0 →
        (calculate_deal_earnings p).total_potential = 25000) ∧
      (calculate_deal_earnings { p with estimated_annual_cost := some a1 }).total_potential <
        (calculate_deal_earnings { p with estimated_annual_cost := some a2 }).total_potential := by
  have hT : 0 < pyOrQ p.max_lease_term_years 10 := by
    cases hc : p.max_lease_term_years with
    | none => simp [pyOrQ]
    | some t =>
      rw [hc] at ht
      simp only [Option.getD] at ht
      simp only [pyOrQ]
      split_ifs with h0
      · norm_num
      · exact lt_of_le_of_ne ht (Ne.symm h0)
  refine ⟨?_, ?_, ?_⟩
  · simp only [calculate_deal_earnings]
  · rintro (hc | hc) <;> simp [calculate_deal_earnings, pyOrQ, hc]
  · have hz1 : a1 ≠ 0 := ne_of_gt h1
    have hz2 : a2 ≠ 0 := ne_of_gt (lt_trans h1 h12)
    have hkey : 0 < (a2 - a1) * (2 / 100 + 1 / 100 + 5 / 1000 * pyOrQ p.max_lease_term_years 10) := by
      apply mul_pos (by linarith)
      have : 0 ≤ 5 / 1000 * pyOrQ p.max_lease_term_years 10 := by positivity
      linarith
    simp only [calculate_deal_earnings, pyOrQ, hz1, hz2, ite_false, if_false] at *
    nlinarith [hkey]

/-- C5 witness: the formula, the 25000 degenerate value and the strict
monotonicity at the example requirement with annual costs 1 < 2. -/
theorem total_potential_formula_mono_witness :
    ((calculate_deal_earnings example_requirement).total_potential =
        (calculate_deal_earnings example_requirement).finder_fee +
          (calculate_deal_earnings example_requirement).consulting_fee +
          (calculate_deal_earnings example_requirement).success_bonus +
          (calculate_deal_earnings example_requirement).ongoing_annual_commission *
            pyOrQ example_requirement.max_lease_term_years 10) ∧
      (example_requirement.estimated_annual_cost = none ∨
          example_requirement.estimated_annual_cost = some 0 →
        (calculate_deal_earnings example_requirement).total_potential = 25000) ∧
      (calculate_deal_earnings
            { example_requirement with estimated_annual_cost := some 1 }).total_potential <
        (calculate_deal_earnings
            { example_requirement with estimated_annual_cost := some 2 }).total_potential :=
  total_potential_formula_mono example_requirement 1 2
    (by norm_num [example_requirement]) (by norm_num) (by norm_num)

/-- The size-advantage band never exceeds its maximum 25. -/
theorem size_advantage_le (q : ℚ) : size_advantage q ≤ 25 := by
  unfold size_advantage
  split_ifs <;> norm_num

/-- The location-advantage band never exceeds its maximum 20. -/
theorem location_advantage_le (location state : String) :
    location_advantage location state ≤ 20 := by
  dsimp only [location_advantage]
  split_ifs <;> norm_num

/-- The agency-advantage band never exceeds its maximum 20. -/
theorem agency_advantage_le (agency special : String) :
    agency_advantage agency special ≤ 20 := by
  dsimp only [agency_advantage]
  split_ifs <;> norm_num

/-- The timeline-advantage band never exceeds its maximum 15. -/
theorem timeline_advantage_le (d : ℤ) : timeline_advantage d ≤ 15 := by
  unfold timeline_advantage
  split_ifs <;> norm_num

/-- The competition-advantage band never exceeds its maximum 10. -/
theorem competition_advantage_le (special : String) :
    competition_advantage special ≤ 10 := by
  dsimp only [competition_advantage]
  split_ifs <;> norm_num

/-- The value-advantage band never exceeds its maximum 10. -/
theorem value_advantage_le (q : ℚ) : value_advantage q ≤ 10 := by
  unfold value_advantage
  split_ifs <;> norm_num

/-- C6: the win-probability total is the plain sum of the six sub-scores,
each sub-score is at most its band maximum (25, 20, 20, 15, 10, 10) — the
if/elif/else band chains are exhaustive and mutually exclusive by
construction — and the total always lies in [0, 100]. -/
theorem win_probability_total_bounds (p : Prospectus) (now : ℤ) :
    ((calculate_win_probability p now).total_score =
        (calculate_win_probability p now).size_advantage +
          (calculate_win_probability p now).location_advantage +
          (calculate_win_probability p now).agency_advantage +
          (calculate_win_probability p now).timeline_advantage +
          (calculate_win_probability p now).competition_advantage +
          (calculate_win_probability p now).value_advantage) ∧
      (calculate_win_probability p now).size_advantage ≤ 25 ∧
      (calculate_win_probability p now).location_advantage ≤ 20 ∧
      (calculate_win_probability p now).agency_advantage ≤ 20 ∧
      (calculate_win_probability p now).timeline_advantage ≤ 15 ∧
      (calculate_win_probability p now).competition_advantage ≤ 10 ∧
      (calculate_win_probability p now).value_advantage ≤ 10 ∧
      0 ≤ (calculate_win_probability p now).total_score ∧
      (calculate_win_probability p now).total_score ≤ 100 := by
  have b1 := size_advantage_le (pyOrQ p.estimated_nusf 0)
  have b2 := location_advantage_le p.location p.state
  have b3 := agency_advantage_le p.agency (pyOrS p.special_requirements)
  have b4 := timeline_advantage_le (calculate_urgency p.current_lease_expiration now)
  have b5 := competition_advantage_le (pyOrS p.special_requirements)
  have b6 := value_advantage_le (pyOrQ p.estimated_annual_cost 0)
  simp only [calculate_win_probability]
  refine ⟨trivial, b1, b2, b3, b4, b5, b6, ?_, ?_⟩
  · simp
  · omega

/-- C7 counterexample: 50 and 100 days until expiration fall on opposite
sides of the urgency classifier's 90-day threshold, yet both receive the
same timeline-advantage score 15 — so the timeline bands do not use the
90-day threshold. -/
theorem timeline_advantage_no_90_boundary :
    timeline_advantage 50 = 15 ∧ timeline_advantage 100 = 15 := by
  constructor <;> rfl

/-- C7 (amended): the timeline-advantage sub-score is non-increasing in
days-until-expiration with maximum 15, and its band boundaries are 180,
365 and 730 days (strict `<`, so the score drops when reaching each
boundary); the urgency classifier's 90-day threshold is not a boundary. -/
theorem timeline_advantage_bands (d1 d2 : ℤ) (h : d1 ≤ d2) :
    timeline_advantage d2 ≤ timeline_advantage d1 ∧
      timeline_advantage d1 ≤ 15 ∧
      timeline_advantage 90 = timeline_advantage 91 ∧
      timeline_advantage 179 = 15 ∧ timeline_advantage 180 = 12 ∧
      timeline_advantage 364 = 12 ∧ timeline_advantage 365 = 8 ∧
      timeline_advantage 729 = 8 ∧ timeline_advantage 730 = 5 := by
  refine ⟨?_, timeline_advantage_le d1, rfl, rfl, rfl, rfl, rfl, rfl, rfl⟩
  unfold timeline_advantage
  split_ifs <;> omega

/-- C7 witness: the band facts at the pair 90 ≤ 180. -/
theorem timeline_advantage_bands_witness :
    timeline_advantage 180 ≤ timeline_advantage 90 ∧
      timeline_advantage 90 ≤ 15 ∧
      timeline_advantage 90 = timeline_advantage 91 ∧
      timeline_advantage 179 = 15 ∧ timeline_advantage 180 = 12 ∧
      timeline_advantage 364 = 12 ∧ timeline_advantage 365 = 8 ∧
      timeline_advantage 729 = 8 ∧ timeline_advantage 730 = 5 :=
  timeline_advantage_bands 90 180 (by norm_num)

/-- C10: when a requirement has no lease-expiration date,
`calculate_urgency` substitutes the sentinel 999, so the easiest-win entry
reports `urgency_days = 999` (not a null/Unknown marker) and the
win-probability computation lands in the lowest timeline band (5 points,
the minimum any requirement can get). -/
theorem missing_expiration_sentinel (p : Prospectus) (now : ℤ)
    (h : p.current_lease_expiration = none) :
    (easy_win_entry p now).urgency_days = 999 ∧
      (calculate_win_probability p now).timeline_advantage = 5 ∧
      (∀ d : ℤ, 5 ≤ timeline_advantage d) := by
  refine ⟨?_, ?_, ?_⟩
  · simp [easy_win_entry, calculate_urgency, h]
  · simp only [calculate_win_probability, calculate_urgency, h]
    rfl
  · intro d
    unfold timeline_advantage
    split_ifs <;> norm_num

/-- C10 witness: the sentinel behaviour at the example requirement (which
has no expiration date on file), evaluated at now = 0. -/
theorem missing_expiration_sentinel_witness :
    (easy_win_entry example_requirement 0).urgency_days = 999 ∧
      (calculate_win_probability example_requirement 0).timeline_advantage = 5 ∧
      (∀ d : ℤ, 5 ≤ timeline_advantage d) :=
  missing_expiration_sentinel example_requirement 0 rfl

/-- The pipeline comparator is total. -/
theorem pipeLe_total (x y : PipelineItem) (h : pipeLe x y = false) : pipeLe y x = true := by
  unfold pipeLe keyLe at *
  simp only [Bool.or_eq_false_iff, Bool.and_eq_false_iff, Bool.or_eq_true,
    Bool.and_eq_true, decide_eq_false_iff_not, decide_eq_true_eq, not_lt] at *
  obtain ⟨h1, h2⟩ := h
  rcases h2 with h2 | h2
  · exact Or.inl (lt_of_le_of_ne h1 (fun hy => h2 hy.symm))
  · rcases lt_or_eq_of_le h1 with hlt | heq
    · exact Or.inl hlt
    · exact Or.inr ⟨heq, le_of_not_le h2⟩

/-- The pipeline comparator is transitive. -/
theorem pipeLe_trans (x y z : PipelineItem)
    (hxy : pipeLe x y = true) (hyz : pipeLe y z = true) : pipeLe x z = true := by
  unfold pipeLe keyLe at *
  simp only [Bool.or_eq_true, Bool.and_eq_true, decide_eq_true_eq] at *
  rcases hxy with h | ⟨h, h'⟩ <;> rcases hyz with g | ⟨g, g'⟩
  · exact Or.inl (lt_trans h g)
  · exact Or.inl (g ▸ h)
  · exact Or.inl (h ▸ g)
  · exact Or.inr ⟨h.trans g, h'.trans g'⟩

/-- C9 counterexample: two pipeline items with the same urgency tier and the
same annual value, supplied with identifier 2 before identifier 1, come out
of the pipeline sort still in that order — ties are not broken by
requirement identifier. -/
theorem pipeline_sort_tie_keeps_input_order :
    pipeline_sort [tie_item_a, tie_item_b] = [tie_item_a, tie_item_b] ∧
      tie_item_b.id < tie_item_a.id ∧
      tie_item_a.urgency = tie_item_b.urgency ∧
      tie_item_a.annual_value = tie_item_b.annual_value := by
  refine ⟨?_, by norm_num [tie_item_a, tie_item_b], rfl, rfl⟩
  norm_num [pipeline_sort, stableSort, insertLe, pipeLe, pipeKey, keyLe, tie_item_a,
    tie_item_b, urgencyRank, valueKey]

/-- C9 (amended): the pipeline display output of `get_gsa_pipeline` is a
permutation of the items built from the active requirements, ordered with
the highest urgency tier first (High before Medium before Low) and by
descending annual value within each tier; items with identical sort keys
keep the order they were supplied in (Python's stable sort) — ties are NOT
broken by requirement identifier. -/
theorem get_gsa_pipeline_order (ps : List Prospectus) (now : ℤ) :
    List.Perm (get_gsa_pipeline ps now)
        ((ps.filter (fun p => decide (p.status = "active"))).map (fun p => pipeline_item p now)) ∧
      (get_gsa_pipeline ps now).Pairwise (fun a b =>
        urgencyRank a.urgency < urgencyRank b.urgency ∨
          (urgencyRank a.urgency = urgencyRank b.urgency ∧
            valueKey a.annual_value ≤ valueKey b.annual_value)) ∧
      (∀ k : Nat × ℚ,
        (get_gsa_pipeline ps now).filter (fun x => decide (pipeKey x = k)) =
          ((ps.filter (fun p => decide (p.status = "active"))).map
              (fun p => pipeline_item p now)).filter (fun x => decide (pipeKey x = k))) := by
  unfold get_gsa_pipeline pipeline_sort
  refine ⟨stableSort_perm pipeLe _, ?_, ?_⟩
  · have hp := stableSort_pairwise pipeLe pipeLe_total pipeLe_trans
      ((ps.filter (fun p => decide (p.status = "active"))).map (fun p => pipeline_item p now))
    refine hp.imp ?_
    intro a b hab
    simpa [pipeLe, keyLe, pipeKey] using hab
  · intro k
    refine stableSort_filter pipeLe (fun x => decide (pipeKey x = k)) ?_ _
    intro x y hx hy
    simp only [decide_eq_true_eq] at hx hy
    simp [pipeLe, keyLe, hx, hy]

end LeaseHawk
